import Mathlib

/-!
Shallow embedding of the astro_cli pipeline interpreter core
(src/engine/functors.py, src/engine/parser.py, src/engine/context.py),
with theorems settling the frozen claims about its specification.

Conventions of the embedding:
* Python dict payloads are modelled as structures whose `Option` fields
  record key presence (a present key holding JSON `null` is
  `some none` where the value itself is optional).
* Raised Python exceptions are modelled with `Except FunctorError`.
* Child processes and the filesystem are modelled by explicit
  parameters describing their observable outcome (exit code, captured
  streams, buffer-file content), so every definition stays executable.
-/

namespace Engine

/-- Errors raised (thrown, not returned as payloads) by the engine.
`executionError` models `FunctorExecutionError`, `valueError` models
`ValueError`, and `attributeError` models the `AttributeError` produced
by calling `.strip()` on `None`. -/
inductive FunctorError where
  | executionError (msg : String)
  | valueError (msg : String)
  | attributeError
  deriving Repr, DecidableEq

/-- The message text `str(exc)` of a raised error, as interpolated by
`ParallelFunctor.execute` into aggregated error strings. -/
def FunctorError.toMessage : FunctorError → String
  | .executionError m => m
  | .valueError m => m
  | .attributeError => "\x27NoneType\x27 object has no attribute \x27strip\x27"

/-- Insert a string into a sorted list (helper for modelling Python
`sorted` on the small key sets appearing in error messages). -/
def insertStr (x : String) : List String → List String
  | [] => [x]
  | y :: ys => if x ≤ y then x :: y :: ys else y :: insertStr x ys

/-- Sort a list of strings; models Python `sorted` over a set of keys. -/
def sortStr : List String → List String
  | [] => []
  | x :: xs => insertStr x (sortStr xs)

/-- Python `str.strip()`: drop leading and trailing whitespace.
Implemented over the character list so it is kernel-executable. -/
def pyStrip (s : String) : String :=
  String.mk (((s.data.dropWhile Char.isWhitespace).reverse.dropWhile
    Char.isWhitespace).reverse)

/-- Python `str.startswith(c)` for a one-character needle (the source
only tests the needles `":"` and `"-"`). -/
def startsWithChar (s : String) (c : Char) : Bool :=
  match s.data with
  | [] => false
  | d :: _ => d = c

/-- Split a character list at newline characters (the line structure
`str.splitlines` exposes for `\n`-separated text). -/
def split_newlines : List Char → List Char → List String
  | [], cur => [String.mk cur.reverse]
  | c :: rest, cur =>
    if c = '\n' then String.mk cur.reverse :: split_newlines rest []
    else split_newlines rest (c :: cur)

/-- `OUTPUT_FIELDS` from src/engine/context.py. -/
def OUTPUT_FIELDS : List String := ["output_files", "is_success", "error_message"]

/-- `OUTPUT_FIELDS` listed in Python `sorted` order, so that set
subtraction followed by `sorted` can be modelled as one filter. -/
def SORTED_OUTPUT_FIELDS : List String := ["error_message", "is_success", "output_files"]

/-- An output payload dict as seen by the engine.  Each schema field is
`none` when the key is absent.  `error_message` distinguishes an absent
key (`none`) from a present key holding `null` (`some none`).
`extraKeys` lists any keys outside the output schema (mapping keys are
unique in Python, so the list is duplicate-free in every real payload). -/
structure OutObj where
  output_files : Option (List String)
  is_success : Option Bool
  error_message : Option (Option String)
  extraKeys : List String
  deriving Repr, DecidableEq

/-- The key set of an output payload, as `payload.keys()` would list it. -/
def OutObj.keys (o : OutObj) : List String :=
  (if o.output_files.isSome then ["output_files"] else []) ++
    (if o.is_success.isSome then ["is_success"] else []) ++
    (if o.error_message.isSome then ["error_message"] else []) ++
    o.extraKeys

/-- `result.get("is_success")` read as a Python truth value: an absent
key gives `None`, which is falsy. -/
def OutObj.isSuccessVal (o : OutObj) : Bool := o.is_success.getD false

/-- `result.get("output_files") or []`: an absent key gives `None` and a
falsy (empty) list is replaced by `[]`, so both collapse to `[]`. -/
def OutObj.outFiles (o : OutObj) : List String := o.output_files.getD []

/-- `Functor._validate_output` (src/engine/functors.py lines 94-108),
expressed on the payload's key list: `missing = OUTPUT_FIELDS - keys`
may contain at most `error_message`, and no key may lie outside
`OUTPUT_FIELDS`.  Values are never inspected. -/
def validate_output_keys (name : String) (keys : List String) : Except FunctorError Unit :=
  let missing := SORTED_OUTPUT_FIELDS.filter (fun f => ! keys.contains f)
  if missing.filter (fun f => f ≠ "error_message") ≠ [] then
    .error (.executionError
      ("Functor \x27" ++ name ++ "\x27 output missing fields: " ++
        String.intercalate ", " missing))
  else
    let unknown := sortStr (keys.filter (fun k => ! OUTPUT_FIELDS.contains k))
    if unknown ≠ [] then
      .error (.executionError
        ("Functor \x27" ++ name ++ "\x27 output included unsupported fields: " ++
          String.intercalate ", " unknown))
    else .ok ()

/-- `Functor._validate_output` applied to a payload object. -/
def validate_output (name : String) (o : OutObj) : Except FunctorError Unit :=
  validate_output_keys name o.keys

/-- An input payload dict passed to `Functor.__call__`.  `extraKeys`
lists keys outside `INPUT_FIELDS = {input_files, extra_args}`. -/
structure InObj where
  input_files : Option (List String)
  extra_args : Option (List String)
  extraKeys : List String
  deriving Repr, DecidableEq

/-- Whether the dict is empty, hence falsy under Python `if payload:`. -/
def InObj.isEmptyDict (o : InObj) : Bool :=
  o.input_files.isNone && o.extra_args.isNone && o.extraKeys.isEmpty

/-- Python truthiness of the optional payload argument: `None` and the
empty dict are falsy. -/
def payloadTruthy : Option InObj → Bool
  | none => false
  | some o => ! o.isEmptyDict

/-- A normalized payload: both fields always present
(the result shape of `Functor._normalize_input`). -/
structure NormPayload where
  input_files : List String
  extra_args : List String
  deriving Repr, DecidableEq

/-- The two optional default lists fixed at functor construction
(`Functor.__init__`): `none` models Python `None`, `some []` a present
but empty list. -/
structure FunctorDefaults where
  default_input_files : Option (List String)
  default_extra_args : Option (List String)
  deriving Repr, DecidableEq

/-- `BuiltinFunctor.__init__` passes `default_input_files=[]`
(src/engine/functors.py line 129). -/
def BuiltinFunctor.defaults (dea : Option (List String)) : FunctorDefaults :=
  ⟨some [], dea⟩

/-- `SystemFunctor.__init__` passes `default_input_files=[]`
(src/engine/functors.py line 269). -/
def SystemFunctor.defaults (dea : Option (List String)) : FunctorDefaults :=
  ⟨some [], dea⟩

/-- `UserDefinedFunctor.__init__` forwards both defaults unchanged. -/
def UserDefinedFunctor.defaults (dif dea : Option (List String)) : FunctorDefaults :=
  ⟨dif, dea⟩

/-- `Functor._normalize_input` (src/engine/functors.py lines 70-92):
reject unknown keys of a truthy payload, then fill `input_files` from
the payload, else the default (when set), else the context path, and
fill `extra_args` from the payload, else the default (when set). -/
def normalize_input (name : String) (defaults : FunctorDefaults) (ctxPath : String)
    (payload : Option InObj) : Except FunctorError NormPayload :=
  let unknown := match payload with
    | some o => if ! o.isEmptyDict then sortStr o.extraKeys else []
    | none => []
  if unknown ≠ [] then
    .error (.executionError
      ("Functor \x27" ++ name ++ "\x27 received unsupported fields: " ++
        String.intercalate ", " unknown))
  else
    let if0 : List String := match payload with
      | some o => if ! o.isEmptyDict then o.input_files.getD [] else []
      | none => []
    let ea0 : List String := match payload with
      | some o => if ! o.isEmptyDict then o.extra_args.getD [] else []
      | none => []
    let input_files := if if0.isEmpty then
        (match defaults.default_input_files with
          | some d => d
          | none => [ctxPath])
      else if0
    let extra_args := if ea0.isEmpty then
        (match defaults.default_extra_args with
          | some d => d
          | none => ea0)
      else ea0
    .ok ⟨input_files, extra_args⟩

/-- `Context._serialize_history` (src/engine/context.py lines 47-55):
the functor name, then the space-joined inputs when non-empty, then the
space-joined extra args when non-empty, all space-separated. -/
def serialize_history (name : String) (p : NormPayload) : String :=
  let joined_input := String.intercalate " " p.input_files
  let joined_args := String.intercalate " " p.extra_args
  String.intercalate " "
    ([name] ++ (if joined_input ≠ "" then [joined_input] else []) ++
      (if joined_args ≠ "" then [joined_args] else []))

/-- The plain-data fields of the runtime context
(src/engine/context.py): resolved working directory and history log.
System handlers receive these fields; the registry itself cannot occur
in its own handlers' type in the embedding. -/
structure CtxData where
  path : String
  history : List String
  deriving Repr, DecidableEq

/-- The runtime context: data fields plus the system-function registry.
Handlers are modelled as pure functions of the payload and the
context's data. -/
structure Ctx where
  data : CtxData
  systemFuncs : String → Option (NormPayload → CtxData → OutObj)

/-- The context's resolved working directory. -/
def Ctx.path (ctx : Ctx) : String := ctx.data.path

/-- The context's history log. -/
def Ctx.history (ctx : Ctx) : List String := ctx.data.history

/-- `Functor.__call__` (src/engine/functors.py lines 61-68): normalize
the input, run the variant-specific `execute`, validate the output, and
append a history entry unless the variant opts out.  The returned pair
carries the output payload and the updated history. -/
def functor_call (name : String) (defaults : FunctorDefaults) (shouldRecord : Bool)
    (exec : NormPayload → Ctx → Except FunctorError OutObj)
    (ctx : Ctx) (payload : Option InObj) :
    Except FunctorError (OutObj × List String) := do
  let normalized ← normalize_input name defaults ctx.path payload
  let output ← exec normalized ctx
  let _ ← validate_output name output
  let hist := if shouldRecord then
      ctx.history ++ [serialize_history name normalized]
    else ctx.history
  pure (output, hist)

/-- The observable outcome of `subprocess.run` for a builtin command:
exit code plus captured stdout/stderr text. -/
structure ProcResult where
  returncode : Int
  stdout : String
  stderr : String
  deriving Repr, DecidableEq

/-- `BuiltinFunctor.execute` (src/engine/functors.py lines 133-169).
`spawn` is `.error msg` when `subprocess.run` raised
`FileNotFoundError`, else the completed process.  Lines are produced by
`splitlines`, stripped, and blanks dropped; success means exit code 0;
`error_message or None` turns an empty message into `null`. -/
def builtin_execute (input_files extra_args : List String)
    (spawn : Except String ProcResult) : OutObj :=
  let _ := extra_args
  match spawn with
  | .error exc => ⟨some input_files, some false, some (some exc), []⟩
  | .ok completed =>
    let is_success := completed.returncode == 0
    let stdout_lines :=
      ((split_newlines completed.stdout.data []).map pyStrip).filter (fun l => l ≠ "")
    let output_files := if stdout_lines ≠ [] then stdout_lines else input_files
    let error_message := if ! is_success then pyStrip completed.stderr else ""
    ⟨some output_files, some is_success,
      some (if error_message ≠ "" then some error_message else none), []⟩

/-- `stdin_data = "\n".join(input_files) if input_files else None`
(src/engine/functors.py line 141): the standard input fed to a builtin
child process, absent when there are no input files. -/
def builtin_stdin (input_files : List String) : Option String :=
  if input_files ≠ [] then some (String.intercalate "\n" input_files) else none

/-- `SystemFunctor.execute` (src/engine/functors.py lines 274-280):
look the name up in the context registry; raise when absent, otherwise
return the handler's result unmodified. -/
def system_execute (name : String) (payload : NormPayload) (ctx : Ctx) :
    Except FunctorError OutObj :=
  match ctx.systemFuncs name with
  | none => .error (.executionError
      ("System functor \x27" ++ name ++ "\x27 is not registered in the context."))
  | some handler => .ok (handler payload ctx.data)

/-- `SystemFunctor.__call__`: the uniform contract with
`_should_record_history` overridden to `False`
(src/engine/functors.py lines 271-272). -/
def system_call (name : String) (dea : Option (List String))
    (ctx : Ctx) (payload : Option InObj) :
    Except FunctorError (OutObj × List String) :=
  functor_call name (SystemFunctor.defaults dea) false
    (fun np c => system_execute name np c) ctx payload

/-- `BuiltinFunctor.__call__`: the uniform contract with history
recording on; the child-process outcome is an explicit parameter. -/
def builtin_call (name : String) (dea : Option (List String))
    (spawn : Except String ProcResult)
    (ctx : Ctx) (payload : Option InObj) :
    Except FunctorError (OutObj × List String) :=
  functor_call name (BuiltinFunctor.defaults dea) true
    (fun np _ => .ok (builtin_execute np.input_files np.extra_args spawn)) ctx payload

/-- The observable outcome of `subprocess.run` for a user-defined
script: exit code plus the captured standard-error text.  The source
runs the script with `capture_output=False`, so `stderr` is always
`none` there (Python `None`); the field is kept to mirror the
`completed.stderr` attribute that line 231 reads. -/
structure UDProc where
  returncode : Int
  stderr : Option String
  deriving Repr, DecidableEq

/-- What `UserDefinedFunctor._load_output_buffer`
(src/engine/functors.py lines 242-256) found in the buffer file. -/
inductive BufferLoad where
  | missing
  | emptyFile
  | invalidJson (msg : String)
  | parsed (pb : OutObj)
  deriving Repr, DecidableEq

/-- The `buffer_error` component of `_load_output_buffer`'s result. -/
def BufferLoad.bufferError : BufferLoad → Option String
  | .missing => some "Script did not produce an output buffer."
  | .emptyFile => some "Script wrote an empty output buffer."
  | .invalidJson m => some ("Invalid JSON output: " ++ m)
  | .parsed _ => none

/-- `completed.stderr.strip()` as executed on line 231: when the child's
standard error was not captured the attribute is `None` and `.strip()`
raises `AttributeError`. -/
def stderrStrip : Option String → Except FunctorError String
  | none => .error .attributeError
  | some s => .ok (pyStrip s)

/-- `UserDefinedFunctor.execute` (src/engine/functors.py lines 194-234)
from the point the payload is serialized: `spawn` is `.error msg` when
`subprocess.run` raised `FileNotFoundError`, `buf` is the buffer-file
load outcome.  On a parsed buffer, the payload is returned verbatim
unless the process exited non-zero while the buffer's `is_success`
(defaulted to `True` when absent) is truthy, in which case a failure is
synthesized from the buffer's outputs and the child's stderr. -/
def userDefined_execute (input_files : List String)
    (spawn : Except String UDProc) (buf : BufferLoad) :
    Except FunctorError OutObj :=
  match spawn with
  | .error exc => .ok ⟨some input_files, some false, some (some exc), []⟩
  | .ok completed =>
    match buf.bufferError with
    | some err => .ok ⟨some input_files, some false, some (some err), []⟩
    | none =>
      match buf with
      | .parsed output_payload =>
        if completed.returncode ≠ 0 ∧ output_payload.is_success.getD true = true then
          match stderrStrip completed.stderr with
          | .error e => .error e
          | .ok se =>
            .ok ⟨some (if output_payload.outFiles ≠ [] then output_payload.outFiles
                  else input_files),
              some false,
              some (some (if se ≠ "" then se else "Script execution failed.")),
              []⟩
        else .ok output_payload
      | .missing => .ok ⟨some input_files, some false, some none, []⟩
      | .emptyFile => .ok ⟨some input_files, some false, some none, []⟩
      | .invalidJson m => .ok ⟨some input_files, some false, some (some m), []⟩

/-- A child functor of a composite node, abstracted to its name and the
behaviour of its `__call__` on a payload (context effects of children
are not needed by the composition claims). -/
structure Child where
  name : String
  run : NormPayload → Except FunctorError OutObj

/-- The loop of `SequentialFunctor.execute` (src/engine/functors.py
lines 292-320): invoke each child with the current payload; return a
failure result immediately; on success require non-empty
`output_files` (else raise) and feed them to the next child with empty
`extra_args`; when the children are exhausted, return the last result
(`last_result or default` — a validated result dict is never falsy, so
the default success payload only arises with zero children). -/
def seq_go (origInputs : List String) :
    List Child → NormPayload → Option OutObj → Except FunctorError OutObj
  | [], _, last => .ok (last.getD ⟨some origInputs, some true, some none, []⟩)
  | c :: rest, cur, _ => do
    let result ← c.run cur
    if ! result.isSuccessVal then
      .ok result
    else
      let output_files := result.outFiles
      if output_files = [] then
        .error (.executionError
          ("Functor \x27" ++ c.name ++ "\x27 produced an empty \x27output_files\x27 value."))
      else
        seq_go origInputs rest ⟨output_files, []⟩ (some result)

/-- `SequentialFunctor.execute`: start from the caller's payload copy. -/
def sequential_execute (children : List Child) (payload : NormPayload) :
    Except FunctorError OutObj :=
  seq_go payload.input_files children ⟨payload.input_files, payload.extra_args⟩ none

/-- The aggregation loop of `ParallelFunctor.execute`
(src/engine/functors.py lines 353-386) over the children's outcomes in
declared order: an exception becomes a `"name: message"` error entry, a
failure result contributes `"name: error_message-or-Unknown error."`,
and a success must have non-empty `output_files` (else raise), which
extend the combined outputs. -/
def par_go (baseInputs : List String) :
    List (String × Except FunctorError OutObj) → List String → List String →
    Except FunctorError OutObj
  | [], combined, errs =>
    if errs ≠ [] then
      .ok ⟨some baseInputs, some false, some (some (String.intercalate "; " errs)), []⟩
    else
      .ok ⟨some combined, some true, some none, []⟩
  | (n, .error exc) :: rest, combined, errs =>
    par_go baseInputs rest combined (errs ++ [n ++ ": " ++ exc.toMessage])
  | (n, .ok result) :: rest, combined, errs =>
    if ! result.isSuccessVal then
      let message := match result.error_message.getD none with
        | some s => if s ≠ "" then s else "Unknown error."
        | none => "Unknown error."
      par_go baseInputs rest combined (errs ++ [n ++ ": " ++ message])
    else
      let output_files := result.outFiles
      if output_files = [] then
        .error (.executionError
          ("Functor \x27" ++ n ++ "\x27 produced an empty \x27output_files\x27 value."))
      else
        par_go baseInputs rest (combined ++ output_files) errs

/-- `ParallelFunctor.execute`: snapshot the payload once, give every
child an identical copy, and aggregate all outcomes in declared child
order (workers are joined before aggregation, so only the per-child
outcomes matter to the result). -/
def parallel_execute (children : List Child) (payload : NormPayload) :
    Except FunctorError OutObj :=
  par_go payload.input_files
    (children.map (fun c => (c.name, c.run ⟨payload.input_files, payload.extra_args⟩)))
    [] []

/-- A whole Sequential chain succeeding: each child, fed the previous
child's `output_files` (and empty `extra_args`), returns a successful
result with non-empty outputs, ending in final result `r`. -/
inductive SeqAllSucceed : List Child → NormPayload → OutObj → Prop where
  | single (c : Child) (p : NormPayload) (r : OutObj) :
      c.run p = .ok r → r.isSuccessVal = true → r.outFiles ≠ [] →
      SeqAllSucceed [c] p r
  | cons (c : Child) (p : NormPayload) (r : OutObj) (rest : List Child) (rfin : OutObj) :
      c.run p = .ok r → r.isSuccessVal = true → r.outFiles ≠ [] →
      SeqAllSucceed rest ⟨r.outFiles, []⟩ rfin →
      SeqAllSucceed (c :: rest) p rfin

/-- `ParseError` from src/engine/parser.py, carrying its message. -/
structure ParseError where
  msg : String
  deriving Repr, DecidableEq

/-- The scanning loop of `_tokenize` (src/engine/parser.py lines
32-80).  State: emitted tokens, the current word accumulated in
reverse, the open quote character (if any), and the escape flag.  The
escape flag is only ever set inside a quoted span, matching the
source, where a backslash outside quotes is an ordinary character. -/
def tokenize_go : List Char → List String → List Char → Option Char → Bool →
    Except ParseError (List String)
  | [], tokens, current, quote, _ =>
    match quote with
    | some _ => .error ⟨"Unterminated quote in command."⟩
    | none => .ok (tokens ++ (if current ≠ [] then [String.mk current.reverse] else []))
  | ch :: cs, tokens, current, quote, escaped =>
    match quote with
    | some q =>
      if escaped then
        tokenize_go cs tokens (ch :: current) quote false
      else if ch = '\\' then
        tokenize_go cs tokens current quote true
      else if ch = q then
        tokenize_go cs (tokens ++ [String.mk current.reverse]) [] none false
      else
        tokenize_go cs tokens (ch :: current) quote false
    | none =>
      if ch = '\x27' ∨ ch = '"' then
        tokenize_go cs (tokens ++ (if current ≠ [] then [String.mk current.reverse] else []))
          [] (some ch) false
      else if ch.isWhitespace then
        tokenize_go cs (tokens ++ (if current ≠ [] then [String.mk current.reverse] else []))
          [] none false
      else if ch = '|' ∨ ch = '(' ∨ ch = ')' ∨ ch = ',' then
        tokenize_go cs
          (tokens ++ (if current ≠ [] then [String.mk current.reverse] else []) ++
            [String.mk [ch]])
          [] none false
      else
        tokenize_go cs tokens (ch :: current) none false

/-- `_tokenize(command)`.  Python `ch.isspace()` is modelled with
`Char.isWhitespace`, which agrees on ASCII input. -/
def tokenize (command : String) : Except ParseError (List String) :=
  tokenize_go command.data [] [] none false

/-- The functor tree the parser builds (src/engine/functors.py class
hierarchy, restricted to the construction-time data the parser sets:
name, command vector or script path, and default argument lists). -/
inductive Functor where
  | builtin (name : String) (command : List String)
      (default_extra_args : Option (List String))
  | userDefined (name : String) (script_path : String)
      (default_input_files : Option (List String))
      (default_extra_args : Option (List String))
  | system (name : String) (default_extra_args : List String)
  | sequential (name : String) (functors : List Functor)
  | parallel (name : String) (functors : List Functor)
  deriving Repr

/-- The functor's immutable `name` attribute. -/
def Functor.name : Functor → String
  | .builtin n _ _ => n
  | .userDefined n _ _ _ => n
  | .system n _ => n
  | .sequential n _ => n
  | .parallel n _ => n

/-- The slice of the context the parser consults: the scripts directory
and the filesystem check `(scripts_path / f"{name}.py").is_file()`
modelled as a predicate on the command word. -/
structure PCtx where
  scriptsPath : String
  scriptExists : String → Bool

/-- The loop of `_Parser._split_user_args` (src/engine/parser.py lines
171-182): words before the first `-`-word are input files; the first
`-`-word and everything after it are extra args. -/
def split_user_args_go : List String → List String → List String →
    List String × List String
  | [], input_files, extra_args => (input_files, extra_args)
  | arg :: rest, input_files, extra_args =>
    if extra_args ≠ [] then
      split_user_args_go rest input_files (extra_args ++ [arg])
    else if startsWithChar arg '-' then
      split_user_args_go rest input_files (extra_args ++ [arg])
    else
      split_user_args_go rest (input_files ++ [arg]) extra_args

/-- `_Parser._split_user_args`. -/
def split_user_args (args : List String) : List String × List String :=
  split_user_args_go args [] []

/-- `_Parser._create_system_functor` (lines 149-153): a bare `:` is an
error; otherwise the name after the colon with all words as extra args. -/
def create_system_functor (raw_name : String) (args : List String) :
    Except ParseError Functor :=
  if raw_name = ":" then .error ⟨"System command name is missing."⟩
  else .ok (.system (raw_name.drop 1) args)

/-- `_Parser._try_create_user_functor` (lines 155-169): `none` when no
script file exists; otherwise split the words and require the first
extra arg (when any) to start with `-`. -/
def try_create_user_functor (ctx : PCtx) (name : String) (args : List String) :
    Except ParseError (Option Functor) :=
  if ! ctx.scriptExists name then .ok none
  else
    let (input_files, extra_args) := split_user_args args
    let headBad := match extra_args with
      | a :: _ => ! startsWithChar a '-'
      | [] => false
    if headBad then
      .error ⟨"User command extra arguments must start with \x27-\x27."⟩
    else
      .ok (some (.userDefined name (ctx.scriptsPath ++ "/" ++ name ++ ".py")
        (if input_files ≠ [] then some input_files else none)
        (if extra_args ≠ [] then some extra_args else none)))

/-- `_Parser._create_builtin_functor` (lines 184-190): command vector
`[name]`, all words as default extra args (or `None` when none). -/
def create_builtin_functor (name : String) (args : List String) : Functor :=
  .builtin name [name] (if args ≠ [] then some args else none)

/-- `_Parser._create_functor` (lines 139-147): `:`-words are system
functors, then script lookup, then builtin fallback. -/
def create_functor (ctx : PCtx) (name : String) (args : List String) :
    Except ParseError Functor :=
  if startsWithChar name ':' then create_system_functor name args
  else
    match try_create_user_functor ctx name args with
    | .error e => .error e
    | .ok (some f) => .ok f
    | .ok none => .ok (create_builtin_functor name args)

/-- The node construction ending `_Parser._parse_parallel` (lines
101-104): collapse a singleton, else join the child names with `", "`
inside a `parallel(...)` wrapper. -/
def mkParallelNode (functors : List Functor) : Functor :=
  match functors with
  | [f] => f
  | fs => .parallel ("parallel(" ++ String.intercalate ", " (fs.map Functor.name) ++ ")") fs

/-- The node construction ending `_Parser._parse_sequential` (lines
111-114): collapse a singleton, else join the child names with `" | "`
inside a `sequential(...)` wrapper. -/
def mkSequentialNode (functors : List Functor) : Functor :=
  match functors with
  | [f] => f
  | fs => .sequential ("sequential(" ++ String.intercalate " | " (fs.map Functor.name) ++ ")") fs

/-- `_Parser._consume_word` (lines 203-210). -/
def consume_word : List String → Except ParseError (String × List String)
  | [] => .error ⟨"Unexpected end of input."⟩
  | t :: ts =>
    if t = "|" ∨ t = "," ∨ t = ")" ∨ t = "(" then
      .error ⟨"Unexpected token \x27" ++ t ++ "\x27."⟩
    else .ok (t, ts)

/-- The argument loop of `_Parser._parse_command` (lines 129-136):
collect words until end of input or an operator, rejecting `(`. -/
def command_args : List String → Except ParseError (List String × List String)
  | [] => .ok ([], [])
  | t :: ts =>
    if t = "|" ∨ t = "," ∨ t = ")" then .ok ([], t :: ts)
    else if t = "(" then
      .error ⟨"Unexpected token \x27(\x27 in command arguments."⟩
    else
      match command_args ts with
      | .error e => .error e
      | .ok (args, rest) => .ok (t :: args, rest)

/-- `_Parser._parse_command` (lines 127-137). -/
def parse_command (ctx : PCtx) (ts : List String) :
    Except ParseError (Functor × List String) := do
  let (name, ts1) ← consume_word ts
  let (args, ts2) ← command_args ts1
  let f ← create_functor ctx name args
  .ok (f, ts2)

mutual

/-- `_Parser._parse_parallel` (lines 96-104).  The `fuel` argument is a
termination artifact of the embedding: the source recursion always
consumes tokens, and `parse` supplies fuel ample for its token list. -/
def parse_parallel : Nat → PCtx → List String → Except ParseError (Functor × List String)
  | 0, _, _ => .error ⟨"Fuel exhausted."⟩
  | fuel + 1, ctx, ts => do
    let (f, ts1) ← parse_sequential fuel ctx ts
    parse_parallel_rest fuel ctx ts1 [f]

/-- The `while self._peek() == ","` loop of `_parse_parallel`. -/
def parse_parallel_rest : Nat → PCtx → List String → List Functor →
    Except ParseError (Functor × List String)
  | 0, _, _, _ => .error ⟨"Fuel exhausted."⟩
  | fuel + 1, ctx, ts, acc =>
    match ts with
    | "," :: ts1 => do
      let (f, ts2) ← parse_sequential fuel ctx ts1
      parse_parallel_rest fuel ctx ts2 (acc ++ [f])
    | _ => .ok (mkParallelNode acc, ts)

/-- `_Parser._parse_sequential` (lines 106-114). -/
def parse_sequential : Nat → PCtx → List String → Except ParseError (Functor × List String)
  | 0, _, _ => .error ⟨"Fuel exhausted."⟩
  | fuel + 1, ctx, ts => do
    let (f, ts1) ← parse_block fuel ctx ts
    parse_sequential_rest fuel ctx ts1 [f]

/-- The `while self._peek() == "|"` loop of `_parse_sequential`. -/
def parse_sequential_rest : Nat → PCtx → List String → List Functor →
    Except ParseError (Functor × List String)
  | 0, _, _, _ => .error ⟨"Fuel exhausted."⟩
  | fuel + 1, ctx, ts, acc =>
    match ts with
    | "|" :: ts1 => do
      let (f, ts2) ← parse_block fuel ctx ts1
      parse_sequential_rest fuel ctx ts2 (acc ++ [f])
    | _ => .ok (mkSequentialNode acc, ts)

/-- `_Parser._parse_block` (lines 116-125). -/
def parse_block : Nat → PCtx → List String → Except ParseError (Functor × List String)
  | 0, _, _ => .error ⟨"Fuel exhausted."⟩
  | fuel + 1, ctx, ts =>
    match ts with
    | "(" :: ts1 => do
      let (f, ts2) ← parse_parallel fuel ctx ts1
      match ts2 with
      | ")" :: ts3 => .ok (f, ts3)
      | t :: _ => .error ⟨"Expected \x27)\x27 but found \x27" ++ t ++ "\x27."⟩
      | [] => .error ⟨"Expected \x27)\x27 but found \x27None\x27."⟩
    | t :: _ =>
      if t = ")" ∨ t = "|" ∨ t = "," then .error ⟨"Unexpected block boundary."⟩
      else parse_command ctx ts
    | [] => .error ⟨"Unexpected block boundary."⟩

end

/-- `parse(command, context)` (src/engine/parser.py lines 22-29):
tokenize, reject an empty command, parse one expression, and demand
that every token was consumed. -/
def parse (ctx : PCtx) (command : String) : Except ParseError Functor := do
  let tokens ← tokenize command
  if tokens = [] then .error ⟨"Empty command."⟩
  else
    let (result, rest) ← parse_parallel (4 * tokens.length + 4) ctx tokens
    match rest with
    | [] => .ok result
    | t :: _ => .error ⟨"Unexpected token: \x27" ++ t ++ "\x27"⟩

/-- Whether an aggregated child outcome counts as a success in
`ParallelFunctor.execute` (a raised exception or a falsy `is_success`
both route to the error list). -/
def entrySuccess : Except FunctorError OutObj → Bool
  | .error _ => false
  | .ok r => r.isSuccessVal

/-- The `"name: message"` string a failing child contributes to the
aggregated error message, `none` for a successful child. -/
def entryFailMsg (n : String) : Except FunctorError OutObj → Option String
  | .error exc => some (n ++ ": " ++ exc.toMessage)
  | .ok r =>
    if r.isSuccessVal then none
    else some (n ++ ": " ++ (match r.error_message.getD none with
      | some s => if s ≠ "" then s else "Unknown error."
      | none => "Unknown error."))

/-- The `output_files` a successful child contributes. -/
def entryOuts : Except FunctorError OutObj → List String
  | .error _ => []
  | .ok r => r.outFiles

/-! ## Helper lemmas -/

theorem insertStr_ne_nil (x : String) (l : List String) : insertStr x l ≠ [] := by
  cases l with
  | nil => simp [insertStr]
  | cons y ys =>
    simp only [insertStr]
    split <;> simp

theorem sortStr_eq_nil_iff (l : List String) : sortStr l = [] ↔ l = [] := by
  cases l with
  | nil => simp [sortStr]
  | cons x xs => simp [sortStr, insertStr_ne_nil]

theorem seq_go_allSucceed {children : List Child} {p : NormPayload} {r : OutObj}
    (h : SeqAllSucceed children p r) :
    ∀ (origInputs : List String) (last : Option OutObj),
      seq_go origInputs children p last = .ok r := by
  induction h with
  | single c p r hrun hsucc houts =>
    intro origInputs last
    simp [seq_go, hrun, hsucc, houts, Bind.bind, Except.bind]
  | cons c p r rest rfin hrun hsucc houts _ ih =>
    intro origInputs last
    simp [seq_go, hrun, hsucc, houts, ih, Bind.bind, Except.bind]

theorem par_go_success (base : List String) :
    ∀ (es : List (String × Except FunctorError OutObj)) (combined : List String),
      (∀ pr ∈ es, entrySuccess pr.2 = true ∧ entryOuts pr.2 ≠ []) →
      par_go base es combined [] =
        .ok ⟨some (combined ++ (es.map (fun pr => entryOuts pr.2)).flatten),
          some true, some none, []⟩ := by
  intro es
  induction es with
  | nil => intro combined _; simp [par_go]
  | cons pr rest ih =>
    intro combined h
    obtain ⟨n, e⟩ := pr
    have hcur := h (n, e) (by simp)
    match e with
    | .error exc => simp [entrySuccess] at hcur
    | .ok r =>
      simp only [entrySuccess] at hcur
      simp only [par_go, hcur.1, Bool.not_true, Bool.false_eq_true, if_false]
      have houts : r.outFiles ≠ [] := by simpa [entryOuts] using hcur.2
      rw [if_neg houts]
      rw [ih (combined ++ r.outFiles) (fun q hq => h q (by simp [hq]))]
      simp [entryOuts, List.append_assoc]

theorem par_go_failure (base : List String) :
    ∀ (es : List (String × Except FunctorError OutObj)) (combined errs : List String),
      (∀ pr ∈ es, entrySuccess pr.2 = true → entryOuts pr.2 ≠ []) →
      (errs ≠ [] ∨ ∃ pr ∈ es, entrySuccess pr.2 = false) →
      par_go base es combined errs =
        .ok ⟨some base, some false,
          some (some (String.intercalate "; "
            (errs ++ es.filterMap (fun pr => entryFailMsg pr.1 pr.2)))), []⟩ := by
  intro es
  induction es with
  | nil =>
    intro combined errs _ herr
    have : errs ≠ [] := by
      rcases herr with h | ⟨pr, hmem, _⟩
      · exact h
      · simp at hmem
    simp [par_go, this]
  | cons pr rest ih =>
    intro combined errs h herr
    obtain ⟨n, e⟩ := pr
    match e with
    | .error exc =>
      simp only [par_go]
      rw [ih combined (errs ++ [n ++ ": " ++ exc.toMessage])
        (fun q hq => h q (by simp [hq])) (Or.inl (by simp))]
      simp [entryFailMsg, List.append_assoc]
    | .ok r =>
      by_cases hs : r.isSuccessVal
      · have houts : r.outFiles ≠ [] := by
          simpa [entryOuts] using h (n, .ok r) (by simp) (by simp [entrySuccess, hs])
        simp only [par_go, hs, Bool.not_true, Bool.false_eq_true, if_false]
        rw [if_neg houts]
        have hrest : errs ≠ [] ∨ ∃ pr ∈ rest, entrySuccess pr.2 = false := by
          rcases herr with hl | ⟨q, hq, hqf⟩
          · exact Or.inl hl
          · rcases List.mem_cons.mp hq with rfl | hq'
            · simp [entrySuccess, hs] at hqf
            · exact Or.inr ⟨q, hq', hqf⟩
        rw [ih (combined ++ r.outFiles) errs (fun q hq => h q (by simp [hq])) hrest]
        simp [entryFailMsg, hs]
      · simp only [par_go, hs, Bool.not_false, if_true]
        rw [ih combined (errs ++ [n ++ ": " ++
            (match r.error_message.getD none with
              | some s => if s ≠ "" then s else "Unknown error."
              | none => "Unknown error.")])
          (fun q hq => h q (by simp [hq])) (Or.inl (by simp))]
        simp [entryFailMsg, hs, List.append_assoc]

theorem tokenize_go_quote_backslash (l : List Char) (tokens : List String)
    (current : List Char) (q : Char) :
    tokenize_go ('\\' :: l) tokens current (some q) false =
      tokenize_go l tokens current (some q) true := by
  simp [tokenize_go]

theorem tokenize_go_quote_escaped (c : Char) (l : List Char) (tokens : List String)
    (current : List Char) (q : Char) :
    tokenize_go (c :: l) tokens current (some q) true =
      tokenize_go l tokens (c :: current) (some q) false := by
  simp [tokenize_go]

theorem tokenize_go_quote_other (c : Char) (l : List Char) (tokens : List String)
    (current : List Char) (q : Char) (hbs : c ≠ '\\') (hcq : c ≠ q) :
    tokenize_go (c :: l) tokens current (some q) false =
      tokenize_go l tokens (c :: current) (some q) false := by
  simp [tokenize_go, hbs, hcq]

theorem tokenize_go_escaped :
    ∀ (t cs : List Char) (tokens : List String) (current : List Char) (q : Char),
      tokenize_go ((t.foldr (fun c acc => '\\' :: c :: acc) []) ++ cs)
          tokens current (some q) false =
        tokenize_go cs tokens (t.reverse ++ current) (some q) false := by
  intro t
  induction t with
  | nil => intro cs tokens current q; simp
  | cons c t' ih =>
    intro cs tokens current q
    simp only [List.foldr, List.cons_append]
    rw [tokenize_go_quote_backslash, tokenize_go_quote_escaped, ih cs tokens (c :: current) q]
    simp

theorem tokenize_go_unterminated :
    ∀ (t : List Char) (tokens : List String) (current : List Char) (q : Char)
      (escaped : Bool), q ∉ t →
      tokenize_go t tokens current (some q) escaped =
        .error ⟨"Unterminated quote in command."⟩ := by
  intro t
  induction t with
  | nil => intro tokens current q escaped _; simp [tokenize_go]
  | cons c t' ih =>
    intro tokens current q escaped hq
    have hcq : c ≠ q := fun h => hq (h ▸ List.mem_cons_self c t')
    have hq' : q ∉ t' := fun h => hq (List.mem_cons_of_mem c h)
    cases escaped with
    | true => rw [tokenize_go_quote_escaped]; exact ih _ _ _ _ hq'
    | false =>
      by_cases hc : c = '\\'
      · subst hc
        rw [tokenize_go_quote_backslash]
        exact ih _ _ _ _ hq'
      · rw [tokenize_go_quote_other c t' tokens current q hc hcq]
        exact ih _ _ _ _ hq'

/-! ## Claim theorems -/

/-- C2 (counterexample): the claim says a functor output with
`is_success: true` and empty `output_files` raises a fatal error and is
never returned to the caller.  But the uniform call contract's
validation only checks keys: a builtin command run with no input files
whose process exits 0 with empty stdout yields exactly such an output,
and `__call__` returns it to the caller (appending a history entry on
the way). -/
theorem C2_counterexample :
    builtin_call "ls" none (.ok ⟨0, "", ""⟩) ⟨⟨"/wd", []⟩, fun _ => none⟩ none =
      .ok (⟨some [], some true, some none, []⟩, ["ls"]) ∧
    (⟨some [], some true, some none, []⟩ : OutObj).isSuccessVal = true ∧
    (⟨some [], some true, some none, []⟩ : OutObj).outFiles = [] :=
  ⟨rfl, rfl, rfl⟩

/-- C2 (amended): `_validate_output` accepts a success payload with
empty `output_files` (it never inspects values), so a top-level call
returns it; the fatal `FunctorExecutionError` is raised only where a
composite consumes a child's result: `SequentialFunctor.execute` and
`ParallelFunctor.execute` raise it at any loop position when a child's
successful result has empty `output_files`. -/
theorem C2_empty_success_output_handling :
    (∀ (name : String),
      validate_output name ⟨some [], some true, some none, []⟩ = .ok ()) ∧
    (∀ (origInputs : List String) (c : Child) (rest : List Child)
        (cur : NormPayload) (last : Option OutObj) (r : OutObj),
      c.run cur = .ok r → r.isSuccessVal = true → r.outFiles = [] →
      seq_go origInputs (c :: rest) cur last = .error (.executionError
        ("Functor \x27" ++ c.name ++ "\x27 produced an empty \x27output_files\x27 value."))) ∧
    (∀ (baseInputs : List String) (n : String)
        (rest : List (String × Except FunctorError OutObj))
        (combined errs : List String) (r : OutObj),
      r.isSuccessVal = true → r.outFiles = [] →
      par_go baseInputs ((n, .ok r) :: rest) combined errs = .error (.executionError
        ("Functor \x27" ++ n ++ "\x27 produced an empty \x27output_files\x27 value."))) := by
  refine ⟨fun name => rfl, ?_, ?_⟩
  · intro origInputs c rest cur last r hrun hsucc hout
    simp [seq_go, hrun, hsucc, hout, Bind.bind, Except.bind]
  · intro baseInputs n rest combined errs r hsucc hout
    simp [par_go, hsucc, hout]

/-- C2 (witness): the amended theorem applied to concrete one-child
composites whose child reports success with empty outputs. -/
theorem C2_empty_success_output_handling_witness :
    seq_go ["x"] [⟨"a", fun _ => .ok ⟨some [], some true, some none, []⟩⟩]
        ⟨["x"], []⟩ none =
      .error (.executionError
        "Functor \x27a\x27 produced an empty \x27output_files\x27 value.") ∧
    par_go ["x"] [("b", .ok ⟨some [], some true, some none, []⟩)] [] [] =
      .error (.executionError
        "Functor \x27b\x27 produced an empty \x27output_files\x27 value.") :=
  ⟨C2_empty_success_output_handling.2.1 ["x"] _ [] _ none _ rfl rfl rfl,
   C2_empty_success_output_handling.2.2 ["x"] "b" [] [] [] _ rfl rfl⟩

/-- C3 (counterexample): the claim says `error_message` may be absent
only when `is_success` is true, so a failure output lacking
`error_message` is rejected.  But validation never reads `is_success`:
a payload with only the keys `output_files` and `is_success`, whose
`is_success` is false, passes. -/
theorem C3_counterexample :
    validate_output "f" ⟨some ["x"], some false, none, []⟩ = .ok () ∧
    (⟨some ["x"], some false, none, []⟩ : OutObj).is_success = some false ∧
    (⟨some ["x"], some false, none, []⟩ : OutObj).error_message = none :=
  ⟨rfl, rfl, rfl⟩

/-- C3 (amended): output validation accepts exactly the mappings whose
keys contain `output_files` and `is_success` and lie inside
`{output_files, is_success, error_message}`; `error_message` may be
absent regardless of the `is_success` value. -/
theorem C3_validate_output_accepts_iff :
    ∀ (name : String) (keys : List String),
      validate_output_keys name keys = .ok () ↔
        ("output_files" ∈ keys ∧ "is_success" ∈ keys ∧
          ∀ k ∈ keys, k ∈ OUTPUT_FIELDS) := by
  intro name keys
  by_cases hof : "output_files" ∈ keys <;>
    by_cases his : "is_success" ∈ keys <;>
      by_cases hem : "error_message" ∈ keys <;>
        simp [validate_output_keys, SORTED_OUTPUT_FIELDS, hof, his, hem,
          sortStr_eq_nil_iff, List.filter_eq_nil_iff, OUTPUT_FIELDS] <;>
        exact forall₂_congr fun k _ => by tauto

/-- C3 (witness): the amended theorem applied to the full key set and
evaluated there. -/
theorem C3_validate_output_accepts_iff_witness :
    validate_output_keys "f" ["output_files", "is_success", "error_message"] = .ok () :=
  (C3_validate_output_accepts_iff "f" ["output_files", "is_success", "error_message"]).mpr
    (by decide)

/-- C6 (counterexample): the claim says a multi-child node's name is
the child names joined with `", "` / `" | "`, but the parser wraps the
join in `parallel(...)` / `sequential(...)`. -/
theorem C6_counterexample :
    (parse ⟨"/scripts", fun _ => false⟩ "a, b").map Functor.name =
      .ok "parallel(a, b)" ∧
    (parse ⟨"/scripts", fun _ => false⟩ "a | b").map Functor.name =
      .ok "sequential(a | b)" ∧
    "parallel(a, b)" ≠ "a, b" ∧ "sequential(a | b)" ≠ "a | b" :=
  ⟨rfl, rfl, by decide, by decide⟩

/-- C6 (amended): every multi-child Sequential (resp. Parallel) node
the parser builds is named `sequential(<names joined with " | ">)`
(resp. `parallel(<names joined with ", ">)`): the parser constructs
composite nodes exclusively through `mkSequentialNode` /
`mkParallelNode`, which produce exactly these names for two or more
children. -/
theorem C6_composite_node_names :
    ∀ (fs : List Functor), 2 ≤ fs.length →
      (mkSequentialNode fs).name =
        "sequential(" ++ String.intercalate " | " (fs.map Functor.name) ++ ")" ∧
      (mkParallelNode fs).name =
        "parallel(" ++ String.intercalate ", " (fs.map Functor.name) ++ ")" := by
  intro fs h
  match fs with
  | [] => simp at h
  | [f] => simp at h
  | a :: b :: rest => exact ⟨rfl, rfl⟩

/-- C6 (witness): the amended theorem applied to a concrete pair of
builtin children. -/
theorem C6_composite_node_names_witness :
    (mkSequentialNode [.builtin "a" ["a"] none, .builtin "b" ["b"] none]).name =
      "sequential(a | b)" ∧
    (mkParallelNode [.builtin "a" ["a"] none, .builtin "b" ["b"] none]).name =
      "parallel(a, b)" :=
  ⟨(C6_composite_node_names [.builtin "a" ["a"] none, .builtin "b" ["b"] none]
      (by decide)).1.trans rfl,
   (C6_composite_node_names [.builtin "a" ["a"] none, .builtin "b" ["b"] none]
      (by decide)).2.trans rfl⟩

/-- C7: `,` binds looser than `|`, parentheses group, and singleton
lists collapse: `a | b, c | d` parses to Parallel of two Sequentials,
`(a, b) | c` to Sequential of a Parallel and a command, and `ls` to the
builtin functor itself with no one-child wrapper. -/
theorem C7_grammar_precedence_and_singleton_collapse :
    parse ⟨"/scripts", fun _ => false⟩ "a | b, c | d" =
      .ok (.parallel "parallel(sequential(a | b), sequential(c | d))"
        [.sequential "sequential(a | b)"
          [.builtin "a" ["a"] none, .builtin "b" ["b"] none],
         .sequential "sequential(c | d)"
          [.builtin "c" ["c"] none, .builtin "d" ["d"] none]]) ∧
    parse ⟨"/scripts", fun _ => false⟩ "(a, b) | c" =
      .ok (.sequential "sequential(parallel(a, b) | c)"
        [.parallel "parallel(a, b)"
          [.builtin "a" ["a"] none, .builtin "b" ["b"] none],
         .builtin "c" ["c"] none]) ∧
    parse ⟨"/scripts", fun _ => false⟩ "ls" = .ok (.builtin "ls" ["ls"] none) :=
  ⟨rfl, rfl, rfl⟩

/-- C10: Builtin and System functors are constructed with
`default_input_files = []` (present but empty), so a call with no
payload or with empty/absent `input_files` (and no unknown keys)
normalizes `input_files` to `[]` — the context-path fall-back never
applies to them — and a builtin with empty `input_files` feeds no
standard input to its child process. -/
theorem C10_builtin_system_default_inputs :
    ∀ (name : String) (dea : Option (List String)) (path : String)
      (payload : Option InObj),
      (payload = none ∨ ∃ o, payload = some o ∧ o.extraKeys = [] ∧
        (o.input_files = none ∨ o.input_files = some [])) →
      BuiltinFunctor.defaults dea = ⟨some [], dea⟩ ∧
      SystemFunctor.defaults dea = ⟨some [], dea⟩ ∧
      (normalize_input name (BuiltinFunctor.defaults dea) path payload).map
          NormPayload.input_files = .ok [] ∧
      (normalize_input name (SystemFunctor.defaults dea) path payload).map
          NormPayload.input_files = .ok [] ∧
      builtin_stdin [] = none := by
  intro name dea path payload h
  have key : (normalize_input name ⟨some [], dea⟩ path payload).map
      NormPayload.input_files = .ok [] := by
    rcases h with rfl | ⟨o, rfl, hk, hin⟩
    · rfl
    · by_cases he : o.isEmptyDict
      · simp [normalize_input, he, Except.map]
      · rcases hin with h1 | h1 <;>
          simp [normalize_input, he, hk, h1, sortStr, Except.map]
  exact ⟨rfl, rfl, key, key, rfl⟩

/-- C10 (witness): the main theorem applied to a payload that supplies
only extra args, and to an absent payload. -/
theorem C10_builtin_system_default_inputs_witness :
    (normalize_input "ls" (BuiltinFunctor.defaults none) "/wd"
        (some ⟨none, some ["-l"], []⟩)).map NormPayload.input_files = .ok [] ∧
    builtin_stdin [] = none :=
  ⟨(C10_builtin_system_default_inputs "ls" none "/wd" (some ⟨none, some ["-l"], []⟩)
      (Or.inr ⟨_, rfl, rfl, Or.inl rfl⟩)).2.2.1,
   (C10_builtin_system_default_inputs "ls" none "/wd" none (Or.inl rfl)).2.2.2.2⟩

/-- C1 (counterexample): the claim says that on non-zero exit with a
buffer that did **not** report success, a failure is synthesized whose
`error_message` is the child's stderr text or the generic message; and
that on non-zero exit with a buffer that reports success the buffer is
returned verbatim.  The code tests the opposite condition
(`output_payload.get("is_success", True)`): with exit code 1 and a
buffer reporting failure, the buffer is returned verbatim, keeping its
own message rather than the claimed stderr-or-generic one. -/
theorem C1_counterexample :
    userDefined_execute ["in"] (.ok ⟨1, none⟩)
        (.parsed ⟨some ["x"], some false, some (some "script says no"), []⟩) =
      .ok ⟨some ["x"], some false, some (some "script says no"), []⟩ ∧
    (1 : Int) ≠ 0 ∧
    (⟨some ["x"], some false, some (some "script says no"), []⟩ : OutObj).is_success =
      some false ∧
    "script says no" ≠ "Script execution failed." :=
  ⟨rfl, by decide, rfl, by decide⟩

/-- C1 (amended): after a successful spawn and buffer parse, the
failure-synthesis branch fires exactly when the process exited non-zero
**and** the parsed buffer reported success (or lacked `is_success`): it
then passes through the buffer's outputs (or the inputs when
absent/empty) with the child's stripped stderr when captured and
non-blank, else `"Script execution failed."` — and since the source
never captures stderr, that branch reads `.strip()` off `None` and
raises `AttributeError`.  In every other case (zero exit, or non-zero
exit with a buffer reporting failure) the buffer payload is returned
verbatim. -/
theorem C1_user_defined_post_run :
    ∀ (input_files : List String) (rc : Int) (stderr : Option String) (pb : OutObj),
      ((rc ≠ 0 ∧ pb.is_success.getD true = true) →
        ((stderr = none →
          userDefined_execute input_files (.ok ⟨rc, stderr⟩) (.parsed pb) =
            .error .attributeError) ∧
        (∀ s, stderr = some s →
          userDefined_execute input_files (.ok ⟨rc, stderr⟩) (.parsed pb) =
            .ok ⟨some (if pb.outFiles ≠ [] then pb.outFiles else input_files),
              some false,
              some (some (if pyStrip s ≠ "" then pyStrip s
                else "Script execution failed.")),
              []⟩))) ∧
      (¬ (rc ≠ 0 ∧ pb.is_success.getD true = true) →
        userDefined_execute input_files (.ok ⟨rc, stderr⟩) (.parsed pb) = .ok pb) := by
  intro input_files rc stderr pb
  constructor
  · intro hcond
    constructor
    · intro hn; subst hn
      simp [userDefined_execute, BufferLoad.bufferError, hcond, stderrStrip]
    · intro s hs; subst hs
      simp [userDefined_execute, BufferLoad.bufferError, hcond, stderrStrip]
  · intro hcond
    simp [userDefined_execute, BufferLoad.bufferError, hcond]

/-- C1 (witness): the amended theorem applied to a buffer reporting
success under exit code 1 (with stderr hypothetically captured, and
absent), and to a zero exit. -/
theorem C1_user_defined_post_run_witness :
    userDefined_execute ["i"] (.ok ⟨1, some " boom "⟩)
        (.parsed ⟨some ["o"], some true, none, []⟩) =
      .ok ⟨some ["o"], some false, some (some "boom"), []⟩ ∧
    userDefined_execute ["i"] (.ok ⟨1, none⟩)
        (.parsed ⟨some ["o"], some true, none, []⟩) = .error .attributeError ∧
    userDefined_execute ["i"] (.ok ⟨0, none⟩)
        (.parsed ⟨some ["o"], some true, none, []⟩) =
      .ok ⟨some ["o"], some true, none, []⟩ :=
  ⟨((C1_user_defined_post_run ["i"] 1 (some " boom ")
      ⟨some ["o"], some true, none, []⟩).1 (by decide)).2 " boom " rfl,
   ((C1_user_defined_post_run ["i"] 1 none
      ⟨some ["o"], some true, none, []⟩).1 (by decide)).1 rfl,
   (C1_user_defined_post_run ["i"] 0 none
      ⟨some ["o"], some true, none, []⟩).2 (by decide)⟩

/-- C4 (counterexample): the claim says that on a child's success the
next child is invoked with the child's `output_files`, and that when
all children succeed the last child's result is returned.  With a first
child succeeding with empty `output_files` (and a second child that
would succeed), the code instead raises a fatal
`FunctorExecutionError`, returning no result at all. -/
theorem C4_counterexample :
    sequential_execute
        [⟨"a", fun _ => .ok ⟨some [], some true, some none, []⟩⟩,
         ⟨"b", fun _ => .ok ⟨some ["y"], some true, some none, []⟩⟩] ⟨["x"], []⟩ =
      .error (.executionError
        "Functor \x27a\x27 produced an empty \x27output_files\x27 value.") ∧
    (⟨some [], some true, some none, []⟩ : OutObj).isSuccessVal = true :=
  ⟨rfl, rfl⟩

/-- C4 (amended): children run left to right, the first receiving the
starting `input_files` and `extra_args`; a child's failure result is
returned unchanged and no later child runs; on a child's success with
non-empty `output_files` the next child receives those outputs with
empty `extra_args` (a successful child with empty outputs raises a
fatal error instead, per C2); when every child succeeds with non-empty
outputs, the last child's result is returned. -/
theorem C4_sequential_semantics :
    (∀ (c : Child) (rest : List Child) (p : NormPayload) (r : OutObj),
      c.run ⟨p.input_files, p.extra_args⟩ = .ok r → r.isSuccessVal = false →
      sequential_execute (c :: rest) p = .ok r) ∧
    (∀ (c1 c2 : Child) (rest : List Child) (p : NormPayload) (r1 r2 : OutObj),
      c1.run ⟨p.input_files, p.extra_args⟩ = .ok r1 → r1.isSuccessVal = true →
      r1.outFiles ≠ [] → c2.run ⟨r1.outFiles, []⟩ = .ok r2 →
      r2.isSuccessVal = false →
      sequential_execute (c1 :: c2 :: rest) p = .ok r2) ∧
    (∀ (children : List Child) (p : NormPayload) (r : OutObj),
      SeqAllSucceed children p r → sequential_execute children p = .ok r) := by
  refine ⟨?_, ?_, ?_⟩
  · intro c rest p r hrun hfail
    simp [sequential_execute, seq_go, hrun, hfail, Bind.bind, Except.bind]
  · intro c1 c2 rest p r1 r2 h1 hs1 ho1 h2 hf2
    simp [sequential_execute, seq_go, h1, hs1, ho1, h2, hf2, Bind.bind, Except.bind]
  · intro children p r h
    exact seq_go_allSucceed h p.input_files none

/-- C4 (witness): the amended theorem applied to a two-stage chain that
succeeds end to end and to a chain whose first stage fails. -/
theorem C4_sequential_semantics_witness :
    sequential_execute
        [⟨"s1", fun _ => .ok ⟨some ["m"], some true, some none, []⟩⟩,
         ⟨"s2", fun _ => .ok ⟨some ["z"], some true, some none, []⟩⟩]
        ⟨["x"], ["-v"]⟩ =
      .ok ⟨some ["z"], some true, some none, []⟩ ∧
    sequential_execute
        [⟨"f1", fun _ => .ok ⟨some ["x"], some false, some (some "boom"), []⟩⟩,
         ⟨"f2", fun _ => .ok ⟨some ["q"], some true, some none, []⟩⟩] ⟨["x"], []⟩ =
      .ok ⟨some ["x"], some false, some (some "boom"), []⟩ :=
  ⟨C4_sequential_semantics.2.2 _ _ _
    (SeqAllSucceed.cons _ _ _ _ _ rfl rfl (by decide)
      (SeqAllSucceed.single _ _ _ rfl rfl (by decide))),
   C4_sequential_semantics.1 _ _ _ _ rfl rfl⟩

/-- C5 (counterexample): the claim says that when every child succeeds
the node returns success with the concatenated outputs.  With one child
succeeding with `["a1"]` and another succeeding with empty
`output_files`, the code instead raises a fatal
`FunctorExecutionError`. -/
theorem C5_counterexample :
    parallel_execute
        [⟨"a", fun _ => .ok ⟨some ["a1"], some true, some none, []⟩⟩,
         ⟨"b", fun _ => .ok ⟨some [], some true, some none, []⟩⟩] ⟨["x"], []⟩ =
      .error (.executionError
        "Functor \x27b\x27 produced an empty \x27output_files\x27 value.") ∧
    (⟨some [], some true, some none, []⟩ : OutObj).isSuccessVal = true :=
  ⟨rfl, rfl⟩

/-- C5 (amended): provided every successful child has non-empty
`output_files` (else a fatal error pre-empts aggregation, per C2): if
every child succeeds, the node succeeds with the children's
`output_files` concatenated in declared order and no error message; if
any child raised or reported failure, the node fails with the original
snapshot `input_files` and the failing children's `"name: message"`
strings joined with `"; "` in declared order. -/
theorem C5_parallel_aggregation :
    ∀ (children : List Child) (payload : NormPayload)
      (es : List (String × Except FunctorError OutObj)),
      es = children.map
        (fun c => (c.name, c.run ⟨payload.input_files, payload.extra_args⟩)) →
      (∀ pr ∈ es, entrySuccess pr.2 = true → entryOuts pr.2 ≠ []) →
      ((∀ pr ∈ es, entrySuccess pr.2 = true) →
        parallel_execute children payload =
          .ok ⟨some ((es.map (fun pr => entryOuts pr.2)).flatten),
            some true, some none, []⟩) ∧
      ((∃ pr ∈ es, entrySuccess pr.2 = false) →
        parallel_execute children payload =
          .ok ⟨some payload.input_files, some false,
            some (some (String.intercalate "; "
              (es.filterMap (fun pr => entryFailMsg pr.1 pr.2)))), []⟩) := by
  intro children payload es hes hne
  constructor
  · intro hall
    unfold parallel_execute
    rw [← hes, par_go_success _ es []
      (fun pr hpr => ⟨hall pr hpr, hne pr hpr (hall pr hpr)⟩)]
    simp
  · intro hex
    unfold parallel_execute
    rw [← hes, par_go_failure _ es [] [] hne (Or.inr hex)]
    simp

/-- C5 (witness): the amended theorem applied to an all-success fan-out
and to a partial-failure fan-out. -/
theorem C5_parallel_aggregation_witness :
    parallel_execute
        [⟨"a", fun _ => .ok ⟨some ["a1"], some true, some none, []⟩⟩,
         ⟨"b", fun _ => .ok ⟨some ["b1", "b2"], some true, some none, []⟩⟩]
        ⟨["x"], []⟩ =
      .ok ⟨some ["a1", "b1", "b2"], some true, some none, []⟩ ∧
    parallel_execute
        [⟨"a", fun _ => .ok ⟨some ["a1"], some true, some none, []⟩⟩,
         ⟨"b", fun _ => .ok ⟨some ["x"], some false, some (some "boom"), []⟩⟩]
        ⟨["x"], []⟩ =
      .ok ⟨some ["x"], some false, some (some "b: boom"), []⟩ :=
  ⟨(C5_parallel_aggregation _ ⟨["x"], []⟩ _ rfl (by decide)).1 (by decide),
   (C5_parallel_aggregation _ ⟨["x"], []⟩ _ rfl (by decide)).2 (by decide)⟩

/-- C8: quoting in the tokenizer: the concrete example
`a 'b c' "d\"e"` yields the three tokens `a`, `b c`, `d"e`; a quote
opens a span in which a backslash escapes any next character literally
(including the quote) and the matching unescaped quote emits the
accumulated text as one token, even when empty; input ending inside an
open quote raises `ParseError("Unterminated quote in command.")`. -/
theorem C8_tokenizer_quoting :
    tokenize "a \x27b c\x27 \"d\\\"e\"" = .ok ["a", "b c", "d\x22e"] ∧
    (∀ (q : Char), (q = '\x27' ∨ q = '"') → ∀ (t : List Char),
      tokenize (String.mk (q :: ((t.foldr (fun c acc => '\\' :: c :: acc) []) ++ [q]))) =
        .ok [String.mk t]) ∧
    (∀ (q : Char) (t : List Char), (q = '\x27' ∨ q = '"') → q ∉ t →
      tokenize (String.mk (q :: t)) =
        .error ⟨"Unterminated quote in command."⟩) := by
  refine ⟨rfl, ?_, ?_⟩
  · intro q hq t
    have hopen : tokenize_go
        (q :: ((t.foldr (fun c acc => '\\' :: c :: acc) []) ++ [q])) [] [] none false =
        tokenize_go ((t.foldr (fun c acc => '\\' :: c :: acc) []) ++ [q])
          [] [] (some q) false := by
      rcases hq with rfl | rfl <;> simp [tokenize_go]
    have hclose : tokenize_go [q] [] (t.reverse ++ []) (some q) false =
        .ok [String.mk (t.reverse ++ []).reverse] := by
      rcases hq with rfl | rfl <;> simp [tokenize_go]
    show tokenize_go
      (q :: ((t.foldr (fun c acc => '\\' :: c :: acc) []) ++ [q])) [] [] none false = _
    rw [hopen, tokenize_go_escaped t [q] [] [] q, hclose]
    simp
  · intro q t hq hmem
    have hopen : tokenize_go (q :: t) [] [] none false =
        tokenize_go t [] [] (some q) false := by
      rcases hq with rfl | rfl <;> simp [tokenize_go]
    show tokenize_go (q :: t) [] [] none false = _
    rw [hopen]
    exact tokenize_go_unterminated t [] [] q false hmem

/-- C8 (witness): the universal clauses applied to an escaped character
inside single quotes and to an unterminated double quote. -/
theorem C8_tokenizer_quoting_witness :
    tokenize (String.mk ['\x27', '\\', 'x', '\x27']) = .ok [String.mk ['x']] ∧
    tokenize (String.mk ['"', 'a']) =
      .error ⟨"Unterminated quote in command."⟩ :=
  ⟨C8_tokenizer_quoting.2.1 '\x27' (Or.inl rfl) ['x'],
   C8_tokenizer_quoting.2.2 '"' ['a'] (Or.inr rfl) (by decide)⟩

/-- C9: a System functor call looks its name up in the context
registry: when absent, a fatal `FunctorExecutionError` is raised (both
at the execute step and through the uniform call contract), never a
failure payload; when a handler is registered it is invoked with the
normalized payload and the context data, its return value passes
through unchanged, and — `_should_record_history` being `False` — the
history is left untouched. -/
theorem C9_system_functor :
    ∀ (name : String) (funcs : String → Option (NormPayload → CtxData → OutObj))
      (d : CtxData) (dea : Option (List String)) (payload : Option InObj)
      (np : NormPayload),
      normalize_input name (SystemFunctor.defaults dea) d.path payload = .ok np →
      ((funcs name = none →
        system_execute name np ⟨d, funcs⟩ = .error (.executionError
          ("System functor \x27" ++ name ++ "\x27 is not registered in the context.")) ∧
        system_call name dea ⟨d, funcs⟩ payload = .error (.executionError
          ("System functor \x27" ++ name ++ "\x27 is not registered in the context."))) ∧
      (∀ handler, funcs name = some handler →
        system_execute name np ⟨d, funcs⟩ = .ok (handler np d) ∧
        (validate_output name (handler np d) = .ok () →
          system_call name dea ⟨d, funcs⟩ payload =
            .ok (handler np d, d.history)))) := by
  intro name funcs d dea payload np hnorm
  constructor
  · intro hn
    constructor
    · simp [system_execute, hn]
    · simp [system_call, functor_call, Ctx.path, hnorm, system_execute, hn,
        Bind.bind, Except.bind]
  · intro handler hh
    constructor
    · simp [system_execute, hh]
    · intro hval
      simp [system_call, functor_call, Ctx.path, Ctx.history, hnorm,
        system_execute, hh, hval, Bind.bind, Except.bind, Pure.pure, Except.pure]

/-- C9 (witness): the theorem applied to an unregistered name and to a
registered constant handler, with a non-empty starting history that
stays unchanged. -/
theorem C9_system_functor_witness :
    system_call "set" none ⟨⟨"/wd", ["h0"]⟩, fun _ => none⟩ none =
      .error (.executionError
        "System functor \x27set\x27 is not registered in the context.") ∧
    system_call "set" none
        ⟨⟨"/wd", ["h0"]⟩,
          fun _ => some (fun _ _ => ⟨some ["ok"], some true, some none, []⟩)⟩ none =
      .ok (⟨some ["ok"], some true, some none, []⟩, ["h0"]) :=
  ⟨((C9_system_functor "set" (fun _ => none) ⟨"/wd", ["h0"]⟩ none none
      ⟨[], []⟩ rfl).1 rfl).2,
   (((C9_system_functor "set"
      (fun _ => some (fun _ _ => ⟨some ["ok"], some true, some none, []⟩))
      ⟨"/wd", ["h0"]⟩ none none ⟨[], []⟩ rfl).2
      (fun _ _ => ⟨some ["ok"], some true, some none, []⟩) rfl).2 rfl)⟩

end Engine
